import Mathlib

/-!
# Verification of `generate_icons.py` (`create_icon`)

A shallow embedding of the icon-rendering routine `create_icon` from
`src/generate_icons.py`, together with the Pillow (PIL) primitives it uses
(`Image.new`, `Image.putpixel`, `Image.alpha_composite`, `ImageDraw.ellipse`,
`ImageDraw.line`).

Modelling conventions:
* Pixels are 4-channel RGBA with channel values in `[0, 255]`, modelled as `Nat`.
* Python float arithmetic on the small scaling constants (`0.23`, `0.15`,
  `0.7071`, `0.7`, `0.08`, and the gradient interpolation) is modelled in exact
  rational arithmetic; `int(...)` on the non-negative values occurring here is
  floor, i.e. `Nat` division.  `int(size * 0.23)` becomes `size * 23 / 100`,
  `int(a * 0.7071)` becomes `a * 7071 / 10000`, and so on.
* Pillow clamps out-of-range ink channel values into `[0, 255]` (`CLIP8` in
  `getink`, used by both `putpixel` and the `ImageDraw` primitives); this is
  modelled by `clip8`.
* `Image.alpha_composite` is modelled by Pillow's exact integer algorithm
  (`ImagingAlphaComposite` in `AlphaComposite.c`, `PRECISION_BITS = 7`,
  rounded division by 255 via the `SHIFTFORDIV255` shift trick).
* An image is a width, a height and a total pixel function; drawing mutations
  become functional updates.  Python's rebinding of the local `img` at line 26
  (`img = Image.alpha_composite(img, glass_overlay)`) creates a fresh buffer,
  while the `draw` object captured at line 12 keeps targeting the original
  buffer; the embedding keeps both buffers explicit.
-/

namespace GenerateIcons

/-- A 4-channel RGBA pixel value; channels are `Nat`s in `[0, 255]`. -/
structure RGBA where
  r : Nat
  g : Nat
  b : Nat
  a : Nat
deriving DecidableEq, Repr

/-- A raster image: width, height, and the pixel value at each coordinate.
Coordinates outside `[0, width) × [0, height)` are not meaningful; theorems
carry in-range hypotheses where it matters. -/
structure Img where
  width : Nat
  height : Nat
  pix : Nat → Nat → RGBA

/-- Pillow's `CLIP8`: ink channel values are clamped into `[0, 255]`
(`getink` in `_imaging.c`, used by `putpixel`, `Image.new` and the
`ImageDraw` primitives).  Our channel values are `Nat`, so only the upper
clamp is relevant. -/
def clip8 (v : Nat) : Nat := min v 255

/-- `Image.new('RGBA', (w, h), c)`: a fresh `w × h` image uniformly filled
with color `c` (channels clamped). -/
def imageNew (w h : Nat) (c : RGBA) : Img :=
  ⟨w, h, fun _ _ => ⟨clip8 c.r, clip8 c.g, clip8 c.b, clip8 c.a⟩⟩

/-- Lines 18-22 of `create_icon`: the pixel written by the gradient loop at
`(x, y)`.  `gradient = (x + y) / (2 * size)`; the channels are
`int(102 + gradient * 118)`, `int(126 + gradient * 46)`,
`int(234 + gradient * 24)` and `255`, each clamped by `putpixel`'s ink
conversion. -/
def gradPixel (size x y : Nat) : RGBA :=
  ⟨clip8 (102 + (x + y) * 118 / (2 * size)),
   clip8 (126 + (x + y) * 46 / (2 * size)),
   clip8 (234 + (x + y) * 24 / (2 * size)),
   clip8 255⟩

/-- Lines 15-22 of `create_icon`: the double `putpixel` loop writes
`gradPixel` at every in-range coordinate (each coordinate is written once, so
the loop order is irrelevant). -/
def gradientFill (size : Nat) (img : Img) : Img :=
  ⟨img.width, img.height, fun x y =>
    if x < size ∧ y < size then gradPixel size x y else img.pix x y⟩

/-- Pillow's `SHIFTFORDIV255(a) = ((a >> 8) + a) >> 8`, a rounded-division
helper used by `ImagingAlphaComposite`. -/
def shiftForDiv255 (a : Nat) : Nat := (a / 256 + a) / 256

/-- Pillow's `ImagingAlphaComposite` per-pixel integer algorithm
(`AlphaComposite.c`, `PRECISION_BITS = 7`): source `src` over destination
`dst`. -/
def alphaCompositePixel (dst src : RGBA) : RGBA :=
  if src.a = 0 then dst
  else
    let blend := dst.a * (255 - src.a)
    let outa255 := src.a * 255 + blend
    let coef1 := src.a * 255 * 255 * 128 / outa255
    let coef2 := 255 * 128 - coef1
    ⟨shiftForDiv255 (src.r * coef1 + dst.r * coef2 + 128 * 128) / 128,
     shiftForDiv255 (src.g * coef1 + dst.g * coef2 + 128 * 128) / 128,
     shiftForDiv255 (src.b * coef1 + dst.b * coef2 + 128 * 128) / 128,
     shiftForDiv255 (outa255 + 128)⟩

/-- `Image.alpha_composite(dst, src)`: a fresh image, pointwise alpha
composition (both operands in this program are RGBA images of equal size). -/
def alphaComposite (dst src : Img) : Img :=
  ⟨dst.width, dst.height, fun x y => alphaCompositePixel (dst.pix x y) (src.pix x y)⟩

/-- The gold ink `(255, 215, 0, 255)` used for the sun and the rays. -/
def goldColor : RGBA := ⟨255, 215, 0, 255⟩

/-- The glass overlay color `(255, 255, 255, 25)` of line 25. -/
def glassColor : RGBA := ⟨255, 255, 255, 25⟩

/-- Membership of pixel `(x, y)` in the filled ellipse inscribed in the
bounding box `[x0, y0, x1, y1]`: the mathematical inside test
`((2x - (x0+x1)) / (x1-x0))² + ((2y - (y0+y1)) / (y1-y0))² ≤ 1`, cleared of
denominators.  This models Pillow's `ImageDraw.ellipse(..., fill=..)`; the
library's scanline rasterization may differ on boundary pixels, which no
theorem below touches. -/
def inEllipseB (x0 y0 x1 y1 x y : Int) : Bool :=
  decide ((2 * x - (x0 + x1)) * (2 * x - (x0 + x1)) * ((y1 - y0) * (y1 - y0)) +
          (2 * y - (y0 + y1)) * (2 * y - (y0 + y1)) * ((x1 - x0) * (x1 - x0)) ≤
          (x1 - x0) * (x1 - x0) * ((y1 - y0) * (y1 - y0)))

/-- An integer line segment, as passed to `draw.line`. -/
structure Seg where
  sx : Int
  sy : Int
  ex : Int
  ey : Int
deriving DecidableEq, Repr

/-- Membership of pixel `(x, y)` in the width-1 stroke of segment `s`:
inside the bounding box and exactly collinear with the endpoints.  Every
segment this program draws is axis-aligned or of slope exactly `±1`, and on
those Pillow's Bresenham stroke is exactly this set of integer points. -/
def onSegB (s : Seg) (x y : Int) : Bool :=
  decide (min s.sx s.ex ≤ x) && decide (x ≤ max s.sx s.ex) &&
  decide (min s.sy s.ey ≤ y) && decide (y ≤ max s.sy s.ey) &&
  decide ((x - s.sx) * (s.ey - s.sy) = (y - s.sy) * (s.ex - s.sx))

/-- `draw.line([s.sx, s.sy, s.ex, s.ey], fill=c, width=1)`: paint `c` on the
stroke of `s`. -/
def drawLine (s : Seg) (c : RGBA) (img : Img) : Img :=
  ⟨img.width, img.height, fun x y =>
    if onSegB s (x : Int) (y : Int) then ⟨clip8 c.r, clip8 c.g, clip8 c.b, clip8 c.a⟩
    else img.pix x y⟩

/-- `draw.ellipse([x0, y0, x1, y1], fill=c)`: paint `c` on the filled
ellipse. -/
def drawEllipse (x0 y0 x1 y1 : Int) (c : RGBA) (img : Img) : Img :=
  ⟨img.width, img.height, fun x y =>
    if inEllipseB x0 y0 x1 y1 (x : Int) (y : Int) then ⟨clip8 c.r, clip8 c.g, clip8 c.b, clip8 c.a⟩
    else img.pix x y⟩

/-- Line 29: `center = size // 2`. -/
def centerOf (size : Nat) : Nat := size / 2

/-- Line 30: `sun_radius = int(size * 0.23)`, modelled exactly. -/
def sunRadius (size : Nat) : Nat := size * 23 / 100

/-- Line 36: `ray_length = int(size * 0.15)`, modelled exactly. -/
def rayLength (size : Nat) : Nat := size * 15 / 100

/-- Line 37: `ray_width = max(2, size // 64)`. -/
def rayWidth (size : Nat) : Nat := max 2 (size / 64)

/-- Lines 31-33: the sun disc, a filled gold ellipse on the bounding box
`[center - r, center - r, center + r, center + r]`. -/
def drawSun (size : Nat) (img : Img) : Img :=
  let center : Int := (centerOf size : Int)
  let r : Int := (sunRadius size : Int)
  drawEllipse (center - r) (center - r) (center + r) (center + r) goldColor img

/-- `int(a * 0.7071)` for a natural `a`: the code's diagonal scale factor
(`cos_a = sin_a = 0.7071`, lines 47-48), modelled exactly. -/
def diagScale (a : Nat) : Nat := a * 7071 / 10000

/-- Lines 50-89: the segment of ray `i` (`0 ≤ i < 8`), exactly the code's
8-way branch.  `i = 0` right, `1` bottom-right, `2` bottom, `3` bottom-left,
`4` left, `5` top-left, `6` top, `7` top-right.  (The defaults computed at
lines 41-44 are dead: every branch overwrites all four coordinates.) -/
def raySegment (size i : Nat) : Seg :=
  let center : Int := (centerOf size : Int)
  let s : Nat := sunRadius size
  let rl : Nat := rayLength size
  match i with
  | 0 => ⟨center + (s : Int) + 10, center, center + (s : Int) + (rl : Int), center⟩
  | 1 => ⟨center + (diagScale (s + 10) : Int), center + (diagScale (s + 10) : Int),
          center + (diagScale (s + rl) : Int), center + (diagScale (s + rl) : Int)⟩
  | 2 => ⟨center, center + (s : Int) + 10, center, center + (s : Int) + (rl : Int)⟩
  | 3 => ⟨center - (diagScale (s + 10) : Int), center + (diagScale (s + 10) : Int),
          center - (diagScale (s + rl) : Int), center + (diagScale (s + rl) : Int)⟩
  | 4 => ⟨center - (s : Int) - 10, center, center - (s : Int) - (rl : Int), center⟩
  | 5 => ⟨center - (diagScale (s + 10) : Int), center - (diagScale (s + 10) : Int),
          center - (diagScale (s + rl) : Int), center - (diagScale (s + rl) : Int)⟩
  | 6 => ⟨center, center - (s : Int) - 10, center, center - (s : Int) - (rl : Int)⟩
  | _ => ⟨center + (diagScale (s + 10) : Int), center - (diagScale (s + 10) : Int),
          center + (diagScale (s + rl) : Int), center - (diagScale (s + rl) : Int)⟩

/-- Line 93: the `w`-th restrike of a ray is the segment translated by
`(w, w)`. -/
def offsetSeg (s : Seg) (w : Nat) : Seg :=
  ⟨s.sx + (w : Int), s.sy + (w : Int), s.ex + (w : Int), s.ey + (w : Int)⟩

/-- Lines 39-94: for each of the 8 rays, stroke `ray_width` parallel
width-1 gold lines offset by `(w, w)`, `w = 0, …, ray_width - 1`. -/
def drawRays (size : Nat) (img : Img) : Img :=
  (List.range 8).foldl
    (fun acc i =>
      (List.range (rayWidth size)).foldl
        (fun acc2 w => drawLine (offsetSeg (raySegment size i) w) goldColor acc2)
        acc)
    img

/-- Lines 96-102: the glass highlight, a filled translucent-white ellipse of
size `int(size * 0.08)` at offset `int(sun_radius * 0.7)` up-and-left of the
center. -/
def drawHighlight (size : Nat) (img : Img) : Img :=
  let center : Int := (centerOf size : Int)
  let hs : Int := (size * 8 / 100 : Int)
  let off : Int := (sunRadius size * 7 / 10 : Int)
  let hx : Int := center - off
  let hy : Int := center - off
  drawEllipse hx hy (hx + hs) (hy + hs) ⟨255, 255, 255, 80⟩ img

/-- The buffer that the `draw` object (captured at line 12) targets after
all drawing calls have run: the gradient-filled original buffer with the sun
disc, the rays and the highlight painted on it.  This buffer is NOT the one
`create_icon` returns. -/
def preCompositeDrawn (size : Nat) : Img :=
  drawHighlight size
    (drawRays size
      (drawSun size
        (gradientFill size (imageNew size size ⟨0, 0, 0, 0⟩))))

/-- `create_icon(size)`, lines 8-104, modelled line by line.  `buf0` is the
buffer allocated at line 11, which the `draw` object of line 12 targets
throughout; at line 26 the Python local `img` is rebound to a fresh
composite, so the subsequent `draw.ellipse` / `draw.line` calls keep
mutating `buf0` while line 104 returns the composite. -/
def create_icon (size : Nat) : Img :=
  let buf0 := imageNew size size ⟨0, 0, 0, 0⟩
  let buf0 := gradientFill size buf0
  let glass := imageNew size size glassColor
  let img := alphaComposite buf0 glass
  let buf0 := drawSun size buf0
  let buf0 := drawRays size buf0
  let _buf0 := drawHighlight size buf0
  img

/-- The pipeline named by claim C2's words: the gradient fill followed by
the glass-overlay composite alone, with no drawing calls. -/
def gradientThenGlass (size : Nat) : Img :=
  alphaComposite (gradientFill size (imageNew size size ⟨0, 0, 0, 0⟩))
    (imageNew size size glassColor)

/-- The closed-form per-pixel value of the image `create_icon` returns:
the gradient pixel composited with the uniform glass overlay. -/
def iconFormula (size x y : Nat) : RGBA :=
  alphaCompositePixel (gradPixel size x y) ⟨255, 255, 255, 25⟩

/-- `Image.new` as invoked with a possibly non-positive requested size:
Pillow raises `ValueError: Width and height must be >= 0` for negative
dimensions and accepts `0` (producing an empty image). -/
def imageNewChecked (w h : Int) (c : RGBA) : Except String Img :=
  if 0 ≤ w ∧ 0 ≤ h then .ok (imageNew w.toNat h.toNat c)
  else .error "ValueError: Width and height must be >= 0"

/-- `create_icon` on an arbitrary integer size argument.  The only fallible
call is `Image.new` at line 11 (negative size); for a non-negative size every
later step is total: the gradient loops run over `range(size)`, the drawing
primitives clip silently, and `alpha_composite` receives two equal-size RGBA
images. -/
def createIconChecked (size : Int) : Except String Img :=
  match imageNewChecked size size ⟨0, 0, 0, 0⟩ with
  | .error e => .error e
  | .ok _ => .ok (create_icon size.toNat)

/-- Whether an `Except` result is a success. -/
def okB : Except String Img → Bool
  | .ok _ => true
  | .error _ => false

/-- Line 112: the PWA icon sizes the driver `main` requests. -/
def iconSizes : List Nat := [72, 96, 128, 144, 152, 192, 384, 512]

/-- The ray-segment geometry as claim C8 words it: each ray starts at
distance `sunRadius + 10` and ends at distance `sunRadius + rayLength` from
the center along its compass direction; the four diagonal directions scale
the distance by the fixed constant `0.70711` (per the claim) through
`int(d * 0.70711)`, and the four axis-aligned directions use the unit axes
directly. -/
def raySegmentClaim (size i : Nat) : Seg :=
  let center : Int := (centerOf size : Int)
  let s : Nat := sunRadius size
  let rl : Nat := rayLength size
  let d0 : Nat := s + 10
  let d1 : Nat := s + rl
  let diag0 : Int := (d0 * 70711 / 100000 : Int)
  let diag1 : Int := (d1 * 70711 / 100000 : Int)
  match i with
  | 0 => ⟨center + (d0 : Int), center, center + (d1 : Int), center⟩
  | 1 => ⟨center + diag0, center + diag0, center + diag1, center + diag1⟩
  | 2 => ⟨center, center + (d0 : Int), center, center + (d1 : Int)⟩
  | 3 => ⟨center - diag0, center + diag0, center - diag1, center + diag1⟩
  | 4 => ⟨center - (d0 : Int), center, center - (d1 : Int), center⟩
  | 5 => ⟨center - diag0, center - diag0, center - diag1, center - diag1⟩
  | 6 => ⟨center, center - (d0 : Int), center, center - (d1 : Int)⟩
  | _ => ⟨center + diag0, center - diag0, center + diag1, center - diag1⟩

/-- The ray-segment geometry of claim C8 amended to the constant the code
actually uses, `0.7071` (lines 47-48), everything else as in
`raySegmentClaim`. -/
def raySegmentAmended (size i : Nat) : Seg :=
  let center : Int := (centerOf size : Int)
  let s : Nat := sunRadius size
  let rl : Nat := rayLength size
  let d0 : Nat := s + 10
  let d1 : Nat := s + rl
  let diag0 : Int := (diagScale d0 : Int)
  let diag1 : Int := (diagScale d1 : Int)
  match i with
  | 0 => ⟨center + (d0 : Int), center, center + (d1 : Int), center⟩
  | 1 => ⟨center + diag0, center + diag0, center + diag1, center + diag1⟩
  | 2 => ⟨center, center + (d0 : Int), center, center + (d1 : Int)⟩
  | 3 => ⟨center - diag0, center + diag0, center - diag1, center + diag1⟩
  | 4 => ⟨center - (d0 : Int), center, center - (d1 : Int), center⟩
  | 5 => ⟨center - diag0, center - diag0, center - diag1, center - diag1⟩
  | 6 => ⟨center, center - (d0 : Int), center, center - (d1 : Int)⟩
  | _ => ⟨center + diag0, center - diag0, center + diag1, center - diag1⟩

/-- The compass-direction predicate for ray `i`: the segment of ray `i`
points from the center into the `i`-th of the 8 directions spaced 45°
apart (right, bottom-right, bottom, bottom-left, left, top-left, top,
top-right), with both endpoints strictly off-center and, for the diagonal
rays, on the exact ±45° diagonal through the center. -/
def compassOk (size i : Nat) : Prop :=
  let c : Int := (centerOf size : Int)
  let sg := raySegment size i
  match i with
  | 0 => sg.sy = c ∧ sg.ey = c ∧ c < sg.sx ∧ c < sg.ex
  | 1 => c < sg.sx ∧ sg.sy - c = sg.sx - c ∧ c < sg.ex ∧ sg.ey - c = sg.ex - c
  | 2 => sg.sx = c ∧ sg.ex = c ∧ c < sg.sy ∧ c < sg.ey
  | 3 => sg.sx < c ∧ sg.sy - c = c - sg.sx ∧ sg.ex < c ∧ sg.ey - c = c - sg.ex
  | 4 => sg.sy = c ∧ sg.ey = c ∧ sg.sx < c ∧ sg.ex < c
  | 5 => sg.sx < c ∧ c - sg.sy = c - sg.sx ∧ sg.ex < c ∧ c - sg.ey = c - sg.ex
  | 6 => sg.sx = c ∧ sg.ex = c ∧ sg.sy < c ∧ sg.ey < c
  | _ => c < sg.sx ∧ c - sg.sy = sg.sx - c ∧ c < sg.ex ∧ c - sg.ey = sg.ex - c

end GenerateIcons

namespace GenerateIcons

/-! ## Helper lemmas -/

theorem clip8_of_le {v : Nat} (h : v ≤ 255) : clip8 v = v :=
  Nat.min_eq_left h

theorem grad_term_lt {x y size k : Nat} (hxy : x + y < 2 * size) (hk : 0 < k) :
    (x + y) * k / (2 * size) < k := by
  have hs : 0 < 2 * size := lt_of_le_of_lt (Nat.zero_le _) hxy
  refine (Nat.div_lt_iff_lt_mul hs).mpr ?_
  calc (x + y) * k < (2 * size) * k := mul_lt_mul_of_pos_right hxy hk
    _ = k * (2 * size) := Nat.mul_comm _ _

/-- The gradient pixel written at an in-range coordinate, with the clamps
resolved: red and green never exceed 255, blue is clamped at 255. -/
theorem gradPixel_eq (size x y : Nat) (hx : x < size) (hy : y < size) :
    gradPixel size x y =
      ⟨102 + (x + y) * 118 / (2 * size), 126 + (x + y) * 46 / (2 * size),
       min 255 (234 + (x + y) * 24 / (2 * size)), 255⟩ := by
  have hxy : x + y < 2 * size := by omega
  have h118 : (x + y) * 118 / (2 * size) < 118 := grad_term_lt hxy (by norm_num)
  have h46 : (x + y) * 46 / (2 * size) < 46 := grad_term_lt hxy (by norm_num)
  unfold gradPixel
  simp only [RGBA.mk.injEq]
  refine ⟨clip8_of_le (by omega), clip8_of_le (by omega), ?_, rfl⟩
  exact Nat.min_comm _ _

/-- Compositing the uniform glass ink `(255,255,255,25)` over any fully
opaque pixel yields a fully opaque pixel (Pillow's integer algorithm). -/
theorem glass_keeps_opaque (dst : RGBA) (h : dst.a = 255) :
    (alphaCompositePixel dst ⟨255, 255, 255, 25⟩).a = 255 := by
  unfold alphaCompositePixel
  rw [if_neg (by decide : ¬(RGBA.a ⟨255, 255, 255, 25⟩ = 0))]
  dsimp only
  rw [h]
  decide

/-! ## Claim theorems -/

/-- C1 (code evaluation at the failing input): at size 72 the pixel
`(36, 36)` lies at the center of the claimed sun disc, yet the image
`create_icon` returns holds the gradient-plus-glass composite value
`(170, 159, 247, 255)` there, not the opaque gold `(255, 215, 0, 255)` —
the sun is drawn into the pre-composite buffer that is discarded by the
rebinding at line 26. -/
theorem claim_C1_code_eval :
    (create_icon 72).width = 72 ∧ (create_icon 72).height = 72 ∧
    (create_icon 72).pix 36 36 = ⟨170, 159, 247, 255⟩ ∧
    (create_icon 72).pix 36 36 ≠ goldColor := by decide

/-- C2: for every size the image `create_icon` returns is exactly the one
produced by the gradient fill followed by the glass-overlay composite alone;
the sun/ray/highlight drawing calls mutate the pre-composite buffer captured
by `ImageDraw.Draw` at line 12 (at size 72 that buffer's center pixel is
gold), and that buffer is not the one returned (the returned image's center
pixel is not gold). -/
theorem claim_C2 :
    (∀ size : Nat, create_icon size = gradientThenGlass size) ∧
    (preCompositeDrawn 72).pix 36 36 = goldColor ∧
    (create_icon 72).pix 36 36 ≠ goldColor :=
  ⟨fun _ => rfl, by decide, by decide⟩

/-- C3 counterexample: size 72 satisfies `16 ≤ N`, but the rightward ray
segment is degenerate — `ray_length = int(0.15 * 72) = 10` equals the fixed
start offset `10`, so start and end coincide at `(62, 36)` — and the
returned image does not hold the gold ray ink at that point. -/
theorem claim_C3_counterexample :
    (16 ≤ 72) ∧ raySegment 72 0 = ⟨62, 36, 62, 36⟩ ∧
    (raySegment 72 0).sx = (raySegment 72 0).ex ∧
    (raySegment 72 0).sy = (raySegment 72 0).ey ∧
    (create_icon 72).pix 62 36 ≠ goldColor := by decide

/-- C3 (amended): for every size ≥ 16 the code computes exactly 8 ray
segments, one at each of the 8 compass directions spaced 45° apart, and
strokes them into the pre-composite buffer; the returned image is the
gradient-plus-glass composite, untouched by the strokes.  (The segments are
not always of nonzero length: see the counterexample at size 72.) -/
theorem claim_C3_amended (size : Nat) (h : 16 ≤ size) :
    ((List.range 8).map (raySegment size)).length = 8 ∧
    (∀ i, i < 8 → compassOk size i) ∧
    create_icon size = gradientThenGlass size := by
  refine ⟨by simp, ?_, rfl⟩
  intro i hi
  have hs : 3 ≤ sunRadius size := by
    have h23 : 16 * 23 ≤ size * 23 := Nat.mul_le_mul_right _ h
    calc 3 = 16 * 23 / 100 := by norm_num
      _ ≤ size * 23 / 100 := Nat.div_le_div_right h23
      _ = sunRadius size := rfl
  have hrl : 2 ≤ rayLength size := by
    have h15 : 16 * 15 ≤ size * 15 := Nat.mul_le_mul_right _ h
    calc 2 = 16 * 15 / 100 := by norm_num
      _ ≤ size * 15 / 100 := Nat.div_le_div_right h15
      _ = rayLength size := rfl
  have hdpos : ∀ a, 2 ≤ a → 0 < diagScale a := by
    intro a ha
    have : 2 * 7071 ≤ a * 7071 := Nat.mul_le_mul_right _ ha
    exact Nat.div_pos (le_trans (by norm_num) this) (by norm_num)
  have hd0 : 0 < diagScale (sunRadius size + 10) := hdpos _ (by omega)
  have hd1 : 0 < diagScale (sunRadius size + rayLength size) := hdpos _ (by omega)
  interval_cases i <;> simp only [compassOk, raySegment, true_and, and_true] <;> omega

/-- Witness for C3 (amended) at size 72. -/
theorem claim_C3_witness :
    16 ≤ 72 ∧
    (((List.range 8).map (raySegment 72)).length = 8 ∧
     (∀ i, i < 8 → compassOk 72 i) ∧
     create_icon 72 = gradientThenGlass 72) :=
  ⟨by decide, claim_C3_amended 72 (by decide)⟩

/-- C4: `create_icon` is a pure function of its size argument — the
returned image is a fixed closed-form function of the size alone: it is
`size × size` and every in-range pixel equals `iconFormula size x y`.
Byte-identical output across calls with the same size follows. -/
theorem claim_C4 (size x y : Nat) (hx : x < size) (hy : y < size) :
    (create_icon size).width = size ∧ (create_icon size).height = size ∧
    (create_icon size).pix x y = iconFormula size x y := by
  refine ⟨rfl, rfl, ?_⟩
  dsimp only [create_icon, alphaComposite, gradientFill, imageNew, glassColor, iconFormula]
  rw [if_pos ⟨hx, hy⟩]
  rfl

/-- Witness for C4 at size 72, pixel (36, 36). -/
theorem claim_C4_witness :
    36 < 72 ∧
    ((create_icon 72).width = 72 ∧ (create_icon 72).height = 72 ∧
     (create_icon 72).pix 36 36 = iconFormula 72 36 36) :=
  ⟨by decide, claim_C4 72 36 36 (by decide) (by decide)⟩

/-- C5 counterexample: size 0 is non-positive, yet `create_icon(0)` returns
successfully — `Image.new` accepts zero dimensions and every later call
clips silently — producing an empty 0×0 image. -/
theorem claim_C5_counterexample :
    okB (createIconChecked 0) = true ∧ (create_icon 0).width = 0 ∧
    (create_icon 0).height = 0 ∧ (0 : Int) ≤ 0 := by
  refine ⟨rfl, rfl, rfl, le_refl 0⟩

/-- C5 (amended): for every strictly negative size argument, `create_icon`
propagates the image library's fault (`Image.new` raises `ValueError`) and
does not return an image; size 0 instead returns an empty image (see the
counterexample). -/
theorem claim_C5_amended (size : Int) (h : size < 0) :
    okB (createIconChecked size) = false := by
  unfold createIconChecked imageNewChecked
  rw [if_neg (by omega : ¬((0:Int) ≤ size ∧ (0:Int) ≤ size))]
  rfl

/-- Witness for C5 (amended) at size -5. -/
theorem claim_C5_witness :
    (-5 : Int) < 0 ∧ okB (createIconChecked (-5)) = false :=
  ⟨by decide, claim_C5_amended (-5) (by decide)⟩

/-- C6 counterexample: at size 12, pixel (11, 11) — in range — the claimed
blue channel `⌊234 + gradient·24⌋` is 256, but the stored pixel is
`(210, 168, 255, 255)`: the blue channel is clamped to 255 by `putpixel`,
so the claimed channel equalities fail. -/
theorem claim_C6_counterexample :
    (gradientFill 12 (imageNew 12 12 ⟨0, 0, 0, 0⟩)).pix 11 11 = ⟨210, 168, 255, 255⟩ ∧
    234 + (11 + 11) * 24 / (2 * 12) = 256 ∧ (255 : Nat) ≠ 256 := by decide

/-- C6 (amended): after the gradient step and before overlay compositing,
every in-range pixel `(x, y)` has red `⌊102 + gradient·118⌋`, green
`⌊126 + gradient·46⌋`, blue `min 255 ⌊234 + gradient·24⌋` (clamped by
`putpixel`), alpha 255, where `gradient = (x+y)/(2·size)` lies in `[0, 1)`;
in particular pixel (0, 0) is `(102, 126, 234, 255)`. -/
theorem claim_C6_amended (size x y : Nat) (hx : x < size) (hy : y < size) :
    (gradientFill size (imageNew size size ⟨0, 0, 0, 0⟩)).pix x y =
      ⟨102 + (x + y) * 118 / (2 * size), 126 + (x + y) * 46 / (2 * size),
       min 255 (234 + (x + y) * 24 / (2 * size)), 255⟩ ∧
    (0 : ℚ) ≤ (x + y : ℚ) / (2 * (size : ℚ)) ∧
    (x + y : ℚ) / (2 * (size : ℚ)) < 1 ∧
    (gradientFill size (imageNew size size ⟨0, 0, 0, 0⟩)).pix 0 0 = ⟨102, 126, 234, 255⟩ := by
  have hsize : 0 < size := lt_of_le_of_lt (Nat.zero_le x) hx
  have hxy : x + y < 2 * size := by omega
  have hq : (0 : ℚ) < 2 * (size : ℚ) := by positivity
  refine ⟨?_, by positivity, ?_, ?_⟩
  · dsimp only [gradientFill, imageNew]
    rw [if_pos ⟨hx, hy⟩]
    exact gradPixel_eq size x y hx hy
  · rw [div_lt_one hq]
    exact_mod_cast hxy
  · dsimp only [gradientFill, imageNew]
    rw [if_pos ⟨hsize, hsize⟩]
    have h00 := gradPixel_eq size 0 0 hsize hsize
    simpa using h00

/-- Witness for C6 (amended) at size 96, pixel (10, 20). -/
theorem claim_C6_witness :
    10 < 96 ∧ 20 < 96 ∧
    ((gradientFill 96 (imageNew 96 96 ⟨0, 0, 0, 0⟩)).pix 10 20 =
      ⟨102 + (10 + 20) * 118 / (2 * 96), 126 + (10 + 20) * 46 / (2 * 96),
       min 255 (234 + (10 + 20) * 24 / (2 * 96)), 255⟩ ∧
     (0 : ℚ) ≤ (10 + 20 : ℚ) / (2 * (96 : ℚ)) ∧
     (10 + 20 : ℚ) / (2 * (96 : ℚ)) < 1 ∧
     (gradientFill 96 (imageNew 96 96 ⟨0, 0, 0, 0⟩)).pix 0 0 = ⟨102, 126, 234, 255⟩) :=
  ⟨by decide, by decide, claim_C6_amended 96 10 20 (by decide) (by decide)⟩

/-- C7: for every size in the driver's list {72, 96, 128, 144, 152, 192,
384, 512}, `create_icon` returns an image of exactly that width and
height. -/
theorem claim_C7 (size : Nat) (_h : size ∈ iconSizes) :
    (create_icon size).width = size ∧ (create_icon size).height = size :=
  ⟨rfl, rfl⟩

/-- Witness for C7 at size 152. -/
theorem claim_C7_witness :
    152 ∈ iconSizes ∧
    ((create_icon 152).width = 152 ∧ (create_icon 152).height = 152) :=
  ⟨by decide, claim_C7 152 (by decide)⟩

/-- C9 counterexample: at size 12, pixel (11, 11), the computed blue
channel is 256 (exceeding 255), but the stored value is 255 (clamped), not
`256 % 256 = 0` as the claim's wrap-around reading asserts. -/
theorem claim_C9_counterexample :
    234 + (11 + 11) * 24 / (2 * 12) = 256 ∧
    ((gradientFill 12 (imageNew 12 12 ⟨0, 0, 0, 0⟩)).pix 11 11).b = 255 ∧
    (234 + (11 + 11) * 24 / (2 * 12)) % 256 = 0 ∧ (255 : Nat) ≠ 0 := by decide

/-- C9 (amended): for every size ≥ 12 the far-corner pixel
`(size-1, size-1)` has computed blue channel `⌊234 + gradient·24⌋ > 255`,
and the value stored by `putpixel` is the computed value clamped to 255 —
not reduced modulo 256.  (For 2 ≤ size ≤ 11 no pixel's computed blue
exceeds 255.) -/
theorem claim_C9_amended (size : Nat) (h : 12 ≤ size) :
    255 < 234 + ((size - 1) + (size - 1)) * 24 / (2 * size) ∧
    ((gradientFill size (imageNew size size ⟨0, 0, 0, 0⟩)).pix (size - 1) (size - 1)).b = 255 ∧
    (234 + ((size - 1) + (size - 1)) * 24 / (2 * size)) % 256 ≠ 255 := by
  have hpos : 0 < 2 * size := by omega
  have hup : ((size - 1) + (size - 1)) * 24 / (2 * size) < 24 := by
    refine (Nat.div_lt_iff_lt_mul hpos).mpr ?_
    omega
  have hlo : 22 ≤ ((size - 1) + (size - 1)) * 24 / (2 * size) := by
    refine (Nat.le_div_iff_mul_le hpos).mpr ?_
    omega
  refine ⟨by omega, ?_, by omega⟩
  dsimp only [gradientFill, imageNew]
  rw [if_pos ⟨by omega, by omega⟩]
  dsimp only [gradPixel]
  exact Nat.min_eq_right (by omega)

/-- Witness for C9 (amended) at size 12. -/
theorem claim_C9_witness :
    12 ≤ 12 ∧
    (255 < 234 + ((12 - 1) + (12 - 1)) * 24 / (2 * 12) ∧
     ((gradientFill 12 (imageNew 12 12 ⟨0, 0, 0, 0⟩)).pix (12 - 1) (12 - 1)).b = 255 ∧
     (234 + ((12 - 1) + (12 - 1)) * 24 / (2 * 12)) % 256 ≠ 255) :=
  ⟨by decide, claim_C9_amended 12 (by decide)⟩

/-- C10: every in-range pixel of the returned image is fully opaque: the
gradient step stores alpha 255 everywhere, and compositing the translucent
glass overlay over an opaque base preserves alpha 255. -/
theorem claim_C10 (size x y : Nat) (hx : x < size) (hy : y < size) :
    ((create_icon size).pix x y).a = 255 := by
  dsimp only [create_icon, alphaComposite, gradientFill, imageNew, glassColor]
  rw [if_pos ⟨hx, hy⟩]
  exact glass_keeps_opaque _ rfl

/-- Witness for C10 at size 128, pixel (0, 127). -/
theorem claim_C10_witness :
    0 < 128 ∧ 127 < 128 ∧ ((create_icon 128).pix 0 127).a = 255 :=
  ⟨by decide, by decide, claim_C10 128 0 127 (by decide) (by decide)⟩

/-- C8 counterexample: at size 1521 the bottom-right ray's end coordinates
computed with the code's constant `0.7071` are `(1167, 1167)`, while the
claimed constant `0.70711` gives `(1168, 1168)` — the segments differ, so
the claim's constant is wrong. -/
theorem claim_C8_counterexample :
    raySegment 1521 1 ≠ raySegmentClaim 1521 1 ∧
    raySegment 1521 1 = ⟨1013, 1013, 1167, 1167⟩ ∧
    raySegmentClaim 1521 1 = ⟨1013, 1013, 1168, 1168⟩ := by decide

/-- C8 (amended): for every size, each ray segment starts at distance
`sunRadius + 10` from the center along its direction and ends at distance
`sunRadius + rayLength`; the four diagonal directions scale distances
through `int(d * c)` with the fixed constant `c = 0.7071` (the code's
value, not the claimed 0.70711), and the four axis-aligned directions use
the unit axes directly. -/
theorem claim_C8_amended (size i : Nat) (hi : i < 8) :
    raySegment size i = raySegmentAmended size i := by
  interval_cases i <;> simp only [raySegment, raySegmentAmended, Seg.mk.injEq] <;>
    refine ⟨?_, ?_, ?_, ?_⟩ <;> push_cast <;> ring

/-- Witness for C8 (amended) at size 192, ray 3. -/
theorem claim_C8_witness :
    3 < 8 ∧ raySegment 192 3 = raySegmentAmended 192 3 :=
  ⟨by decide, claim_C8_amended 192 3 (by decide)⟩

end GenerateIcons
